import Mathlib

/-!
Verification of the blowout-prior mining pipeline
(`scripts/mine_blowout_priors.py`).

The Python source is shallowly embedded below: pandas data frames become
lists of typed rows, floats become exact rationals (`ℚ`), Python's
`round(x, n)` becomes decimal rounding with ties-to-even, Python dicts
become functions into `Option`, and the per-game try/except structure is
made explicit by passing each fetch's possible exception as data.
-/

attribute [local semireducible] Rat.add Rat.mul Rat.inv Rat.sub Rat.ofScientific

namespace Blowout

/-- Margin threshold for a blowout entering Q4 (`BLOWOUT_MARGIN_Q4 = 15`). -/
def BLOWOUT_MARGIN_Q4 : ℤ := 15

/-- Margin threshold for a close game entering Q4 (`CLOSE_MARGIN_Q4 = 10`). -/
def CLOSE_MARGIN_Q4 : ℤ := 10

/-- Minimum baseline possession sample (`BASELINE_MIN_POSS = 100.0`). -/
def BASELINE_MIN_POSS : ℚ := 100

/-- Minimum treatment-bucket possession sample (`TREATMENT_MIN_POSS = 20.0`). -/
def TREATMENT_MIN_POSS : ℚ := 20

/-- Free-throw-attempt-rate ceiling for the baseline (`CLOSE_FTA_RATE_MAX = 0.35`). -/
def CLOSE_FTA_RATE_MAX : ℚ := 0.35

/-- Foul-filter switch (`ENABLE_FOUL_FILTER = True`). -/
def ENABLE_FOUL_FILTER : Bool := true

/-- Rounding of a rational to the nearest integer with ties going to the even
integer, the rule Python's builtin `round` uses. -/
def roundHalfEven (x : ℚ) : ℤ :=
  let f : ℤ := ⌊x⌋
  if x - f < 1/2 then f
  else if x - f > 1/2 then f + 1
  else if f % 2 = 0 then f else f + 1

/-- Python's `round(x, 2)` on our rational model of floats. -/
def round2 (x : ℚ) : ℚ := (roundHalfEven (x * 100) : ℚ) / 100

/-- Python's `round(x, 4)` on our rational model of floats. -/
def round4 (x : ℚ) : ℚ := (roundHalfEven (x * 10000) : ℚ) / 10000

/-- Classification of one team's Q4 game state from its signed margin
entering Q4 (`fetch_q4_rows_fallback`, the `abs_m` branch): blowout when
`|m| ≥ BLOWOUT_MARGIN_Q4` (leading iff the margin is positive), close when
`|m| ≤ CLOSE_MARGIN_Q4`, otherwise the team contributes no row. -/
def classify (margin : ℤ) : Option (String × String) :=
  if BLOWOUT_MARGIN_Q4 ≤ |margin| then
    some ("blowout", if 0 < margin then "leading" else "trailing")
  else if |margin| ≤ CLOSE_MARGIN_Q4 then
    some ("close", "neutral")
  else
    none

/-- One row of the season game-finder table, restricted to the columns the
fallback estimator reads (`TEAM_ID` may be missing, hence `Option`). -/
structure TeamStatRow where
  game_id : String
  team_id : Option ℤ
  team_abbr : String
  pts : ℚ
  fga : ℚ
  fta : ℚ
  tov : ℚ
  oreb : ℚ
  min : ℚ
  deriving DecidableEq, Repr

/-- One raw-store row: `(game_id, team, game_state, team_state, pace, ortg,
poss, fta_rate)`. The `fta_rate` column may be missing (NaN) in a loaded
store, hence `Option`. -/
structure RawRow where
  game_id : String
  team : String
  game_state : String
  team_state : String
  pace : ℚ
  ortg : ℚ
  poss : ℚ
  fta_rate : Option ℚ
  deriving DecidableEq, Repr

/-- The composite dedup key of a raw row. -/
def rawKey (r : RawRow) : String × String × String × String :=
  (r.game_id, r.team, r.game_state, r.team_state)

/-- The standard possessions estimator used by the fallback path:
`poss = fga + 0.44*fta - oreb + tov`. -/
def possessions (fga fta oreb tov : ℚ) : ℚ :=
  fga + 0.44 * fta - oreb + tov

/-- The body of the per-team loop in `fetch_q4_rows_fallback`: skip the row
when the team id is missing, absent from the margins dict, unclassified, or
has non-positive estimated possessions; otherwise emit a raw row with the
proxy pace/ortg and a quarter of the possessions. -/
def processTeamRow (game_id : String) (margins : ℤ → Option ℤ)
    (row : TeamStatRow) : Option RawRow :=
  match row.team_id with
  | none => none
  | some tid =>
    match margins tid with
    | none => none
    | some margin =>
      match classify margin with
      | none => none
      | some (g_state, t_state) =>
        let min_played : ℚ := row.min / 5
        let poss := possessions row.fga row.fta row.oreb row.tov
        if poss ≤ 0 then none
        else
          let pace : ℚ := if 0 < min_played then poss / min_played * 48 else 100
          let ortg : ℚ := if 0 < poss then row.pts / poss * 100 else 110
          some { game_id := game_id, team := row.team_abbr,
                 game_state := g_state, team_state := t_state,
                 pace := round2 pace, ortg := round2 ortg,
                 poss := round2 (poss / 4),
                 fta_rate := some (if 0 < row.fga then round4 (row.fta / row.fga) else 0) }

/-- Model of `fetch_q4_rows_fallback` minus its exception handler (the
handler is added by `fetchWithExc` below): restrict the season table to the
game, require at least two rows, and return the emitted rows with status
`DONE` when non-empty and `SKIP_MEDIUM` otherwise. -/
def fetch_q4_rows_fallback (game_id : String) (margins : ℤ → Option ℤ)
    (team_stats : List TeamStatRow) : List RawRow × String :=
  let game_rows := team_stats.filter (fun r => r.game_id = game_id)
  if game_rows.length < 2 then ([], "ERROR_NO_DATA")
  else
    let rows := game_rows.filterMap (processTeamRow game_id margins)
    (rows, if rows = [] then "SKIP_MEDIUM" else "DONE")

/-- One row of the line-score table read by `get_q3_margins`: team id plus
the first three quarter scores (a missing score is coerced to 0 by
`fillna(0)`, modelled with `Option`). -/
structure LineRow where
  team_id : ℤ
  q1 : Option ℤ
  q2 : Option ℤ
  q3 : Option ℤ
  deriving DecidableEq, Repr

/-- Points scored entering Q4: `PTS_QTR1 + PTS_QTR2 + PTS_QTR3` after the
`fillna(0)` coercion. -/
def pts_enter_q4 (r : LineRow) : ℤ :=
  r.q1.getD 0 + r.q2.getD 0 + r.q3.getD 0

/-- Model of `get_q3_margins` on an already-extracted line-score table:
`None` when fewer than two rows; otherwise the Python dict
`{t1_id: t1_pts - t2_pts, t2_id: t2_pts - t1_pts}`, modelled as a lookup
function that (like dict insertion) lets the second binding win. -/
def get_q3_margins (line : List LineRow) : Option (ℤ → Option ℤ) :=
  match line with
  | t1 :: t2 :: _ =>
      let p1 := pts_enter_q4 t1
      let p2 := pts_enter_q4 t2
      some (fun t =>
        if t = t2.team_id then some (p2 - p1)
        else if t = t1.team_id then some (p1 - p2)
        else none)
  | _ => none

/-- One manifest row: `(game_id, status, reason)`. The wall-clock
`processed_at_utc` column is untracked data and is omitted from the model. -/
structure ManifestEntry where
  game_id : String
  status : String
  reason : String
  deriving DecidableEq, Repr

/-- The set of game ids treated as already processed (`main`): with
`--retry-errors` only games having an entry with status `DONE` or
`SKIP_MEDIUM`; otherwise games having any entry at all. -/
def processed_ids (manifest : List ManifestEntry) (retry_errors : Bool) :
    List String :=
  if retry_errors then
    (manifest.filter
      (fun e => e.status = "DONE" ∨ e.status = "SKIP_MEDIUM")).map (·.game_id)
  else
    manifest.map (·.game_id)

/-- The games actually targeted by a run: discovered ids minus the
already-processed set. -/
def newGameIds (manifest : List ManifestEntry) (all_game_ids : List String)
    (retry_errors : Bool) : List String :=
  all_game_ids.filter (fun g => g ∉ processed_ids manifest retry_errors)

/-- Whether a list of characters starts with the four letters `SKIP`. -/
def startsWithSKIP : List Char → Bool
  | 'S' :: 'K' :: 'I' :: 'P' :: _ => true
  | _ => false

/-- Whether a list of characters contains `SKIP` as a contiguous run. -/
def charsContainSKIP : List Char → Bool
  | [] => false
  | c :: rest => startsWithSKIP (c :: rest) || charsContainSKIP rest

/-- Python's `"SKIP" in status` substring test. -/
def strContainsSKIP (s : String) : Bool :=
  charsContainSKIP s.toList

/-- The per-run environment: what the upstream returns for each game. The
margins component is the result of `get_q3_margins` (whose internal bare
`except` already converts any exception to `None`); `fetchExc` gives the
class name of the exception `fetch_q4_rows_fallback` catches for the game,
or `none` when it completes normally. -/
structure GameEnv where
  margins : String → Option (ℤ → Option ℤ)
  fetchExc : String → Option String
  team_stats : List TeamStatRow

/-- The `except Exception` wrapper of `fetch_q4_rows_fallback`: a caught
exception of kind `k` yields `([], "ERROR_" ++ k)`. -/
def fetchWithExc (env : GameEnv) (gid : String) (m : ℤ → Option ℤ) :
    List RawRow × String :=
  match env.fetchExc gid with
  | some kind => ([], "ERROR_" ++ kind)
  | none => fetch_q4_rows_fallback gid m env.team_stats

/-- Mutable state of the main loop: rows staged for the raw store, manifest
rows staged, and the in-memory dedup key set. Batch flushes only move the
staged rows to disk, so the model accumulates them for the whole run. -/
structure LoopState where
  batch_raw : List RawRow
  manifest_new : List ManifestEntry
  existing_keys : List (String × String × String × String)
  deriving DecidableEq, Repr

/-- Dedup staging of candidate rows (`main`, the `for r in rows` loop): a
row whose key is already in the seen set is dropped, an appended row's key
is added to the set. -/
def stageRows : List (String × String × String × String) → List RawRow →
    List RawRow × List (String × String × String × String)
  | keys, [] => ([], keys)
  | keys, r :: rest =>
    if rawKey r ∈ keys then stageRows keys rest
    else
      let out := stageRows (rawKey r :: keys) rest
      (r :: out.1, out.2)

/-- One iteration of the per-game loop in `main`: a missing line score is
recorded as `ERROR/no_linescore`; a `DONE` fetch stages its deduplicated
rows and records `DONE/success`; any other status is recorded with itself
as reason, as `SKIP_MEDIUM` when it contains `SKIP` and `ERROR` otherwise. -/
def processGame (env : GameEnv) (st : LoopState) (gid : String) : LoopState :=
  match env.margins gid with
  | none =>
      { st with manifest_new :=
          st.manifest_new ++ [⟨gid, "ERROR", "no_linescore"⟩] }
  | some m =>
      let fetched := fetchWithExc env gid m
      if fetched.2 = "DONE" then
        let staged := stageRows st.existing_keys fetched.1
        { batch_raw := st.batch_raw ++ staged.1,
          manifest_new := st.manifest_new ++ [⟨gid, "DONE", "success"⟩],
          existing_keys := staged.2 }
      else
        { st with manifest_new := st.manifest_new ++
            [⟨gid, if strContainsSKIP fetched.2 then "SKIP_MEDIUM" else "ERROR",
              fetched.2⟩] }

/-- The whole per-game loop of `main` over the targeted game ids. -/
def runLoop (env : GameEnv) (new_game_ids : List String)
    (keys0 : List (String × String × String × String)) : LoopState :=
  new_game_ids.foldl (processGame env) ⟨[], [], keys0⟩

/-- Python's `int()` truncation toward zero, applied by `generate_priors`
to possession totals. -/
def pyInt (q : ℚ) : ℤ :=
  if 0 ≤ q then ⌊q⌋ else ⌈q⌉

/-- The `np.average(a, weights=w)` weighted mean: the sum of pairwise
products divided by the sum of weights. -/
def np_average (a w : List ℚ) : ℚ :=
  ((a.zip w).map (fun p => p.1 * p.2)).sum / w.sum

/-- The baseline foul filter in `generate_priors`: when enabled, keep a
close row iff its `fta_rate` is missing (NaN) or at most
`CLOSE_FTA_RATE_MAX`. -/
def foulFilter (rows : List RawRow) : List RawRow :=
  if ENABLE_FOUL_FILTER then
    rows.filter (fun r =>
      match r.fta_rate with
      | none => true
      | some v => v ≤ CLOSE_FTA_RATE_MAX)
  else rows

/-- The filtered close-game rows a team's baseline is computed from. -/
def closeRows (t_df : List RawRow) : List RawRow :=
  foulFilter (t_df.filter (fun r => r.game_state = "close"))

/-- The blowout rows of a team in one `team_state` bucket. -/
def bucketRows (t_df : List RawRow) (state : String) : List RawRow :=
  (t_df.filter (fun r => r.game_state = "blowout")).filter
    (fun r => r.team_state = state)

/-- Total possessions of a list of raw rows (`df["poss"].sum()`). -/
def possSum (rows : List RawRow) : ℚ :=
  (rows.map RawRow.poss).sum

/-- A baseline block of the priors artifact. -/
structure Baseline where
  pace : ℚ
  ortg : ℚ
  nPoss : ℤ
  deriving DecidableEq, Repr

/-- A leading/trailing delta block of the priors artifact. -/
structure DeltaEntry where
  paceDelta : ℚ
  pppDelta : ℚ
  nPoss : ℤ
  deriving DecidableEq, Repr

/-- One per-team entry of the priors artifact. -/
structure PriorEntry where
  team : String
  baseline : Baseline
  leading : Option DeltaEntry
  trailing : Option DeltaEntry
  deriving DecidableEq, Repr

/-- The delta block for one blowout bucket (`generate_priors`, the
`for state in ...` body): present iff the bucket's possession total meets
`TREATMENT_MIN_POSS`, with possession-weighted means expressed as ratios
to the unrounded baseline means. -/
def bucketDelta (t_df : List RawRow) (state : String)
    (base_pace base_ortg : ℚ) : Option DeltaEntry :=
  let s_df := bucketRows t_df state
  let s_poss := possSum s_df
  if TREATMENT_MIN_POSS ≤ s_poss then
    some { paceDelta :=
             round4 (np_average (s_df.map RawRow.pace) (s_df.map RawRow.poss) / base_pace),
           pppDelta :=
             round4 (np_average (s_df.map RawRow.ortg) (s_df.map RawRow.poss) / base_ortg),
           nPoss := pyInt s_poss }
  else none

/-- The possession-weighted baseline pace of a team's filtered close rows
(`np.average(close_df["pace"], weights=close_df["poss"])`). -/
def basePace (t_df : List RawRow) : ℚ :=
  np_average ((closeRows t_df).map RawRow.pace) ((closeRows t_df).map RawRow.poss)

/-- The possession-weighted baseline offensive rating of a team's filtered
close rows. -/
def baseOrtg (t_df : List RawRow) : ℚ :=
  np_average ((closeRows t_df).map RawRow.ortg) ((closeRows t_df).map RawRow.poss)

/-- The per-team body of `generate_priors`: `none` when the filtered close
possessions fall below `BASELINE_MIN_POSS` or neither blowout bucket
qualifies; otherwise the team's priors entry. -/
def teamEntry (t_df : List RawRow) (team : String) : Option PriorEntry :=
  if possSum (closeRows t_df) < BASELINE_MIN_POSS then none
  else
    let leading := bucketDelta t_df "leading" (basePace t_df) (baseOrtg t_df)
    let trailing := bucketDelta t_df "trailing" (basePace t_df) (baseOrtg t_df)
    if leading.isSome ∨ trailing.isSome then
      some { team := team,
             baseline := ⟨round2 (basePace t_df), round2 (baseOrtg t_df),
                          pyInt (possSum (closeRows t_df))⟩,
             leading := leading, trailing := trailing }
    else none

/-- Insertion of a string into a sorted list of strings. -/
def insertSorted (s : String) : List String → List String
  | [] => [s]
  | t :: rest => if s ≤ t then s :: t :: rest else t :: insertSorted s rest

/-- Ascending sort of a list of strings (`sorted(...)`). -/
def sortStrings (l : List String) : List String :=
  l.foldr insertSorted []

/-- Model of `generate_priors`: for each distinct team, in ascending order,
the optional per-team entry computed from that team's rows. The artifact's
constant metadata fields (`league`, `season`, `generated_at`) carry no
per-team data and are omitted. -/
def generate_priors (df : List RawRow) : List PriorEntry :=
  (sortStrings (df.map RawRow.team).dedup).filterMap
    (fun team => teamEntry (df.filter (fun r => r.team = team)) team)

/-- Outcome of one `main` run: the process exit code, the manifest and raw
rows appended over the run, and the priors artifact written at the end
(`none` when the run aborted before finalization). -/
structure RunOutcome where
  exitCode : ℕ
  manifestAppended : List ManifestEntry
  rawAppended : List RawRow
  priorsOut : Option (List PriorEntry)
  deriving DecidableEq, Repr

/-- Model of `main`: when discovery yields no games the run logs and
returns (the interpreter then exits with code 0) without touching the
stores; otherwise it loops over the not-yet-processed games, appends the
staged rows, and finalizes the priors JSON from the full raw store. -/
def mainRun (env : GameEnv) (manifest : List ManifestEntry)
    (raw_store : List RawRow) (all_game_ids : List String)
    (retry_errors : Bool) : RunOutcome :=
  if all_game_ids.isEmpty then
    { exitCode := 0, manifestAppended := [], rawAppended := [], priorsOut := none }
  else
    let new_ids := newGameIds manifest all_game_ids retry_errors
    let st := runLoop env new_ids (raw_store.map rawKey)
    { exitCode := 0,
      manifestAppended := st.manifest_new,
      rawAppended := st.batch_raw,
      priorsOut := some (generate_priors (raw_store ++ st.batch_raw)) }

/-! Concrete fixtures used to exercise the model on explicit inputs. -/

/-- A raw store for one team with two equal-weight close rows and one
qualifying blowout-leading row. -/
def dfBaselineCheck : List RawRow :=
  [⟨"g1", "BOS", "close", "neutral", 100, 110, 50, some 0.2⟩,
   ⟨"g2", "BOS", "close", "neutral", 90, 100, 50, some 0.2⟩,
   ⟨"g3", "BOS", "blowout", "leading", 105, 115, 20, some 0.2⟩]

/-- The priors entry the aggregator produces from `dfBaselineCheck`. -/
def entryBaselineCheck : PriorEntry :=
  { team := "BOS", baseline := ⟨95, 105, 100⟩,
    leading := some ⟨11053/10000, 1369/1250, 20⟩, trailing := none }

/-- A raw store for one team with a valid baseline, an under-threshold
trailing bucket (10 possessions) and a qualifying leading bucket. -/
def dfGatingCheck : List RawRow :=
  [⟨"h1", "NYK", "close", "neutral", 98, 108, 60, some 0.3⟩,
   ⟨"h2", "NYK", "close", "neutral", 102, 112, 60, none⟩,
   ⟨"h3", "NYK", "blowout", "trailing", 95, 90, 10, some 0.1⟩,
   ⟨"h4", "NYK", "blowout", "leading", 104, 118, 25, some 0.1⟩]

/-- Close rows exercising the foul filter: a low-rate row, a missing-rate
row and an over-ceiling row. -/
def dfFoulCheck : List RawRow :=
  [⟨"k1", "MIA", "close", "neutral", 99, 107, 40, some 0.2⟩,
   ⟨"k2", "MIA", "close", "neutral", 97, 103, 45, none⟩,
   ⟨"k3", "MIA", "close", "neutral", 101, 120, 42, some 0.5⟩]

/-- A manifest with one entry of each status. -/
def manifestCheck : List ManifestEntry :=
  [⟨"a", "ERROR", "no_linescore"⟩, ⟨"b", "DONE", "success"⟩,
   ⟨"c", "SKIP_MEDIUM", "SKIP_MEDIUM"⟩]

/-- A margins dict giving team 1 a +20 margin. -/
def marginsCheck : ℤ → Option ℤ :=
  fun t => if t = 1 then some 20 else if t = 2 then some (-20) else none

/-- A season-stats row for team 1 in game `g1`. -/
def statRowCheck : TeamStatRow :=
  ⟨"g1", some 1, "AAA", 100, 80, 20, 15, 10, 240⟩

/-- A season-stats row for team 2 in game `g1`. -/
def statRowCheck2 : TeamStatRow :=
  ⟨"g1", some 2, "BBB", 90, 80, 20, 15, 10, 240⟩

/-- An environment whose game `g1` resolves fully through the fallback
path. -/
def envDedupCheck : GameEnv :=
  { margins := fun g => if g = "g1" then some marginsCheck else none,
    fetchExc := fun _ => none,
    team_stats := [statRowCheck, statRowCheck2] }

/-- An environment where game `g2` has a line score but its fetch raises a
`ValueError`. -/
def envExcCheck : GameEnv :=
  { margins := fun g => if g = "g1" ∨ g = "g2" then some (fun _ => none) else none,
    fetchExc := fun g => if g = "g2" then some "ValueError" else none,
    team_stats := [] }

/-- An environment where game `g1` has a line score but its fetch raises an
exception whose class name is `SKIP`. -/
def envSkipCheck : GameEnv :=
  { margins := fun g => if g = "g1" then some (fun _ => none) else none,
    fetchExc := fun _ => some "SKIP",
    team_stats := [] }

/-- The environment of a run whose discovery returns nothing. -/
def envNoneCheck : GameEnv :=
  { margins := fun _ => none, fetchExc := fun _ => none, team_stats := [] }

/-- First line-score row of the synthetic game used for the margin check. -/
def lineRowCheck1 : LineRow := ⟨10, some 30, some 30, some 30⟩

/-- Second line-score row of the synthetic game used for the margin
check. -/
def lineRowCheck2 : LineRow := ⟨20, some 25, some 25, some 25⟩

/-- The priors entry the aggregator produces from `dfGatingCheck`. -/
def entryGatingCheck : PriorEntry :=
  { team := "NYK", baseline := ⟨100, 110, 120⟩,
    leading := some ⟨26/25, 10727/10000, 25⟩, trailing := none }

/-- The missing-`fta_rate` row of `dfFoulCheck`. -/
def rowNanCheck : RawRow :=
  ⟨"k2", "MIA", "close", "neutral", 97, 103, 45, none⟩

/-- Invariant tying a loop state to the store keys present at load time:
the in-memory key set is exactly the loaded keys plus the staged rows'
keys, the staged keys are pairwise distinct, and no staged key was already
in the store. -/
def KeysInv (keys0 : List (String × String × String × String))
    (st : LoopState) : Prop :=
  (∀ k, k ∈ st.existing_keys ↔ k ∈ keys0 ∨ k ∈ st.batch_raw.map rawKey) ∧
  (st.batch_raw.map rawKey).Nodup ∧
  (∀ k ∈ st.batch_raw.map rawKey, k ∉ keys0)

/-! Helper lemmas. -/

/-- Staging extends the seen-key set by exactly the staged rows' keys. -/
theorem stageRows_mem_keys (cands : List RawRow)
    (keys : List (String × String × String × String))
    (k : String × String × String × String) :
    k ∈ (stageRows keys cands).2 ↔
      k ∈ keys ∨ k ∈ (stageRows keys cands).1.map rawKey := by
  induction cands generalizing keys with
  | nil => simp [stageRows]
  | cons r rest ih =>
    by_cases hr : rawKey r ∈ keys
    · simp only [stageRows, if_pos hr]
      rw [ih]
    · simp only [stageRows, if_neg hr, List.map_cons, List.mem_cons]
      rw [ih]
      simp only [List.mem_cons]
      tauto

/-- The staged rows have pairwise distinct keys, none of which was
already seen. -/
theorem stageRows_fresh_nodup (cands : List RawRow)
    (keys : List (String × String × String × String)) :
    ((stageRows keys cands).1.map rawKey).Nodup ∧
    ∀ k ∈ (stageRows keys cands).1.map rawKey, k ∉ keys := by
  induction cands generalizing keys with
  | nil => simp [stageRows]
  | cons r rest ih =>
    by_cases hr : rawKey r ∈ keys
    · simp only [stageRows, if_pos hr]
      exact ih keys
    · obtain ⟨hnd, hfresh⟩ := ih (rawKey r :: keys)
      simp only [stageRows, if_neg hr, List.map_cons]
      refine ⟨List.nodup_cons.mpr
        ⟨fun hmem => (hfresh _ hmem) (List.mem_cons_self _ _), hnd⟩, ?_⟩
      intro k hk
      rcases List.mem_cons.mp hk with hk | hk
      · subst hk; exact hr
      · exact fun hkk => hfresh k hk (List.mem_cons_of_mem _ hkk)

/-- One loop iteration preserves the key invariant. -/
theorem processGame_inv (env : GameEnv)
    (keys0 : List (String × String × String × String)) (st : LoopState)
    (gid : String) (h : KeysInv keys0 st) :
    KeysInv keys0 (processGame env st gid) := by
  obtain ⟨hiff, hnd, hfr⟩ := h
  simp only [processGame]
  cases henv : env.margins gid with
  | none => exact ⟨hiff, hnd, hfr⟩
  | some m =>
    dsimp only
    by_cases hdone : (fetchWithExc env gid m).2 = "DONE"
    · rw [if_pos hdone]
      refine ⟨?_, ?_, ?_⟩
      · intro k
        rw [stageRows_mem_keys]
        simp only [List.map_append, List.mem_append]
        rw [hiff k]
        tauto
      · rw [List.map_append, List.nodup_append]
        refine ⟨hnd,
          (stageRows_fresh_nodup (fetchWithExc env gid m).1 st.existing_keys).1,
          ?_⟩
        intro k hk1 hk2
        exact (stageRows_fresh_nodup (fetchWithExc env gid m).1
          st.existing_keys).2 k hk2 ((hiff k).mpr (Or.inr hk1))
      · intro k hk
        rw [List.map_append, List.mem_append] at hk
        rcases hk with hk | hk
        · exact hfr k hk
        · exact fun hk0 => (stageRows_fresh_nodup (fetchWithExc env gid m).1
            st.existing_keys).2 k hk ((hiff k).mpr (Or.inl hk0))
    · rw [if_neg hdone]
      exact ⟨hiff, hnd, hfr⟩

/-- The whole loop preserves the key invariant. -/
theorem foldl_processGame_inv (env : GameEnv)
    (keys0 : List (String × String × String × String)) (ids : List String)
    (st : LoopState) (h : KeysInv keys0 st) :
    KeysInv keys0 (ids.foldl (processGame env) st) := by
  induction ids generalizing st with
  | nil => simpa using h
  | cons gid rest ih => exact ih _ (processGame_inv env keys0 st gid h)

/-- The key invariant for a run started on a loaded store. -/
theorem runLoop_inv (env : GameEnv) (ids : List String)
    (keys0 : List (String × String × String × String)) :
    KeysInv keys0 (runLoop env ids keys0) := by
  refine foldl_processGame_inv env keys0 ids _ ?_
  refine ⟨fun k => ?_, by simp, by simp⟩
  simp

/-- The rows a run appends have pairwise distinct keys, none already in
the loaded store. -/
theorem mainRun_raw_spec (env : GameEnv) (manifest : List ManifestEntry)
    (raw : List RawRow) (ids : List String) (retry : Bool) :
    ((mainRun env manifest raw ids retry).rawAppended.map rawKey).Nodup ∧
    ∀ k ∈ (mainRun env manifest raw ids retry).rawAppended.map rawKey,
      k ∉ raw.map rawKey := by
  unfold mainRun
  split
  · simp
  · have h := runLoop_inv env (newGameIds manifest ids retry) (raw.map rawKey)
    exact ⟨h.2.1, h.2.2⟩

/-- A run leaves the raw store's composite keys pairwise distinct. -/
theorem mainRun_nodup (env : GameEnv) (manifest : List ManifestEntry)
    (raw : List RawRow) (ids : List String) (retry : Bool)
    (h : (raw.map rawKey).Nodup) :
    ((raw ++ (mainRun env manifest raw ids retry).rawAppended).map rawKey).Nodup := by
  obtain ⟨h1, h2⟩ := mainRun_raw_spec env manifest raw ids retry
  rw [List.map_append, List.nodup_append]
  exact ⟨h, h1, fun k hk1 hk2 => h2 k hk2 hk1⟩

/-- The `np.average` of two columns projected from the same rows is the sum
of the products over the sum of the weights. -/
theorem np_average_map (l : List RawRow) (f g : RawRow → ℚ) :
    np_average (l.map f) (l.map g) =
      (l.map (fun r => f r * g r)).sum / (l.map g).sum := by
  simp only [np_average, List.zip_map', List.map_map]
  rfl

/-- Characterization of a successful `teamEntry`: the baseline sample was
sufficient, the entry is the literal record built from the baseline means
and the two bucket deltas, and at least one bucket delta is present. -/
theorem teamEntry_eq (t_df : List RawRow) (team : String) (e : PriorEntry)
    (h : teamEntry t_df team = some e) :
    BASELINE_MIN_POSS ≤ possSum (closeRows t_df) ∧
    e = { team := team,
          baseline := ⟨round2 (basePace t_df), round2 (baseOrtg t_df),
                       pyInt (possSum (closeRows t_df))⟩,
          leading := bucketDelta t_df "leading" (basePace t_df) (baseOrtg t_df),
          trailing := bucketDelta t_df "trailing" (basePace t_df) (baseOrtg t_df) } ∧
    ((bucketDelta t_df "leading" (basePace t_df) (baseOrtg t_df)).isSome ∨
     (bucketDelta t_df "trailing" (basePace t_df) (baseOrtg t_df)).isSome) := by
  simp only [teamEntry] at h
  split_ifs at h with h1 h2
  · exact ⟨not_lt.mp h1, (Option.some.inj h).symm, h2⟩

/-- A bucket whose possession total is under the threshold produces no
delta block. -/
theorem bucketDelta_none (t_df : List RawRow) (state : String)
    (bp bo : ℚ) (h : possSum (bucketRows t_df state) < TREATMENT_MIN_POSS) :
    bucketDelta t_df state bp bo = none := by
  simp only [bucketDelta]
  rw [if_neg (not_le.mpr h)]

/-- A produced delta block comes from a qualifying bucket and is the
rounded ratio of the bucket's weighted means to the baseline means. -/
theorem bucketDelta_some (t_df : List RawRow) (state : String)
    (bp bo : ℚ) (d : DeltaEntry) (h : bucketDelta t_df state bp bo = some d) :
    TREATMENT_MIN_POSS ≤ possSum (bucketRows t_df state) ∧
    d = { paceDelta := round4 (np_average ((bucketRows t_df state).map RawRow.pace)
            ((bucketRows t_df state).map RawRow.poss) / bp),
          pppDelta := round4 (np_average ((bucketRows t_df state).map RawRow.ortg)
            ((bucketRows t_df state).map RawRow.poss) / bo),
          nPoss := pyInt (possSum (bucketRows t_df state)) } := by
  simp only [bucketDelta] at h
  split_ifs at h with h1
  · exact ⟨h1, (Option.some.inj h).symm⟩

/-! Theorems. -/

/-- C2: for every signed third-period differential `m`, a margin of at
least `BLOWOUT_MARGIN_Q4` in absolute value classifies as `blowout` with
`leading` for positive margins and `trailing` otherwise, a margin of at
most `CLOSE_MARGIN_Q4` in absolute value classifies as `close`/`neutral`,
and a margin strictly between the thresholds produces no row. -/
theorem classify_thresholds (m : ℤ) :
    (15 ≤ m → classify m = some ("blowout", "leading")) ∧
    (m ≤ -15 → classify m = some ("blowout", "trailing")) ∧
    (|m| ≤ 10 → classify m = some ("close", "neutral")) ∧
    (10 < |m| → |m| < 15 → classify m = none) := by
  rcases abs_choice m with h | h <;>
    have h0 : (0 : ℤ) ≤ |m| := abs_nonneg m <;>
    refine ⟨fun h1 => ?_, fun h1 => ?_, fun h1 => ?_, fun h1 h2 => ?_⟩ <;>
    simp only [classify, BLOWOUT_MARGIN_Q4, CLOSE_MARGIN_Q4] <;>
    split_ifs <;>
    first
      | rfl
      | omega

/-- Witness for C2 at the spec's test margins: `±20` give
blowout/leading and blowout/trailing, `±5` give close/neutral, `±12` give
no row. -/
theorem classify_thresholds_check :
    classify 20 = some ("blowout", "leading") ∧
    classify (-20) = some ("blowout", "trailing") ∧
    classify 5 = some ("close", "neutral") ∧
    classify (-5) = some ("close", "neutral") ∧
    classify 12 = none ∧
    classify (-12) = none :=
  ⟨(classify_thresholds 20).1 (by decide),
   (classify_thresholds (-20)).2.1 (by decide),
   (classify_thresholds 5).2.2.1 (by decide),
   (classify_thresholds (-5)).2.2.1 (by decide),
   (classify_thresholds 12).2.2.2 (by decide) (by decide),
   (classify_thresholds (-12)).2.2.2 (by decide) (by decide)⟩

/-- C6: in the fallback estimator, a classified team row with positive
estimated possessions and positive minutes yields a raw row whose pace is
`poss / (minutes / 5) * 48`, whose offensive rating is
`points / poss * 100`, and whose persisted possession count is one quarter
of the estimated total, each rounded to the persisted precision; and the
estimator itself gives `possessions 80 20 10 15 = 93.8`. -/
theorem fallback_estimator_formulas :
    (∀ (gid : String) (margins : ℤ → Option ℤ) (row : TeamStatRow)
       (tid margin : ℤ) (gs ts : String),
       row.team_id = some tid →
       margins tid = some margin →
       classify margin = some (gs, ts) →
       0 < possessions row.fga row.fta row.oreb row.tov →
       0 < row.min →
       processTeamRow gid margins row = some
         { game_id := gid, team := row.team_abbr,
           game_state := gs, team_state := ts,
           pace := round2
             (possessions row.fga row.fta row.oreb row.tov / (row.min / 5) * 48),
           ortg := round2
             (row.pts / possessions row.fga row.fta row.oreb row.tov * 100),
           poss := round2 (possessions row.fga row.fta row.oreb row.tov / 4),
           fta_rate :=
             some (if 0 < row.fga then round4 (row.fta / row.fga) else 0) }) ∧
    possessions 80 20 10 15 = 93.8 := by
  constructor
  · intro gid margins row tid margin gs ts htid hmar hcls hposs hmin
    have hmin5 : (0 : ℚ) < row.min / 5 := by positivity
    simp only [processTeamRow, htid, hmar, hcls]
    rw [if_neg (not_le.mpr hposs), if_pos hmin5, if_pos hposs]
  · norm_num [possessions]

/-- Witness for C6: the spec's numerical example run through the model, a
team with `FGA=80, FTA=20, OREB=10, TOV=15`, 100 points and 240 team
minutes, leading by 20 entering Q4. -/
theorem fallback_estimator_formulas_check :
    statRowCheck.team_id = some 1 ∧
    marginsCheck 1 = some 20 ∧
    classify 20 = some ("blowout", "leading") ∧
    0 < possessions 80 20 10 15 ∧
    (0 : ℚ) < 240 ∧
    processTeamRow "g1" marginsCheck statRowCheck = some
      { game_id := "g1", team := "AAA",
        game_state := "blowout", team_state := "leading",
        pace := 469/5, ortg := 10661/100, poss := 469/20,
        fta_rate := some (1/4) } :=
  ⟨rfl, rfl, by decide, by decide, by decide,
   ((fallback_estimator_formulas.1 "g1" marginsCheck statRowCheck 1 20
      "blowout" "leading" rfl rfl (by decide) (by decide)
      (by decide)).trans (by decide))⟩

/-- C3: the baseline pace and offensive rating of every emitted priors
entry are the possession-weighted means (sum of value times possessions
over sum of possessions) of the team's filtered close rows, at the
persisted 2-decimal precision; and on the concrete store with close rows
`(pace=100, poss=50)` and `(pace=90, poss=50)` the emitted baseline pace is
exactly `95`. -/
theorem baseline_weighted_mean :
    (∀ (t_df : List RawRow) (team : String) (e : PriorEntry),
       teamEntry t_df team = some e →
       e.baseline.pace = round2
         (((closeRows t_df).map (fun r => r.pace * r.poss)).sum /
          ((closeRows t_df).map RawRow.poss).sum) ∧
       e.baseline.ortg = round2
         (((closeRows t_df).map (fun r => r.ortg * r.poss)).sum /
          ((closeRows t_df).map RawRow.poss).sum)) ∧
    (generate_priors dfBaselineCheck).map (fun e => e.baseline.pace) = [95] := by
  constructor
  · intro t_df team e h
    obtain ⟨-, he, -⟩ := teamEntry_eq t_df team e h
    rw [he]
    exact ⟨by simp [basePace, np_average_map], by simp [baseOrtg, np_average_map]⟩
  · decide

/-- Witness for C3: the aggregator on the concrete store produces the
expected entry, and its baseline pace is both the weighted-mean formula
and exactly `95`. -/
theorem baseline_weighted_mean_check :
    teamEntry dfBaselineCheck "BOS" = some entryBaselineCheck ∧
    entryBaselineCheck.baseline.pace = round2
      (((closeRows dfBaselineCheck).map (fun r => r.pace * r.poss)).sum /
       ((closeRows dfBaselineCheck).map RawRow.poss).sum) ∧
    entryBaselineCheck.baseline.pace = 95 :=
  ⟨by decide,
   (baseline_weighted_mean.1 dfBaselineCheck "BOS" entryBaselineCheck
      (by decide)).1,
   by decide⟩

/-- C4: a team appears in the priors output only if its filtered close
possessions reach `BASELINE_MIN_POSS` and at least one blowout bucket is
present; a bucket under `TREATMENT_MIN_POSS` contributes no
leading/trailing field even when the baseline is valid; and a present
bucket's deltas are the bucket's possession-weighted means divided by the
baseline means, at the persisted 4-decimal precision. -/
theorem prior_threshold_gating :
    (∀ (df : List RawRow) (e : PriorEntry), e ∈ generate_priors df →
       BASELINE_MIN_POSS ≤
         possSum (closeRows (df.filter (fun r => r.team = e.team))) ∧
       (e.leading.isSome ∨ e.trailing.isSome)) ∧
    (∀ (t_df : List RawRow) (team : String) (e : PriorEntry),
       teamEntry t_df team = some e →
       (possSum (bucketRows t_df "leading") < TREATMENT_MIN_POSS →
          e.leading = none) ∧
       (possSum (bucketRows t_df "trailing") < TREATMENT_MIN_POSS →
          e.trailing = none) ∧
       (∀ d, e.leading = some d →
          TREATMENT_MIN_POSS ≤ possSum (bucketRows t_df "leading") ∧
          d.paceDelta = round4
            (np_average ((bucketRows t_df "leading").map RawRow.pace)
              ((bucketRows t_df "leading").map RawRow.poss) / basePace t_df) ∧
          d.pppDelta = round4
            (np_average ((bucketRows t_df "leading").map RawRow.ortg)
              ((bucketRows t_df "leading").map RawRow.poss) / baseOrtg t_df)) ∧
       (∀ d, e.trailing = some d →
          TREATMENT_MIN_POSS ≤ possSum (bucketRows t_df "trailing") ∧
          d.paceDelta = round4
            (np_average ((bucketRows t_df "trailing").map RawRow.pace)
              ((bucketRows t_df "trailing").map RawRow.poss) / basePace t_df) ∧
          d.pppDelta = round4
            (np_average ((bucketRows t_df "trailing").map RawRow.ortg)
              ((bucketRows t_df "trailing").map RawRow.poss) / baseOrtg t_df))) := by
  constructor
  · intro df e he
    obtain ⟨team, -, hf⟩ := List.mem_filterMap.mp he
    obtain ⟨hposs, heq, hsome⟩ :=
      teamEntry_eq (df.filter (fun r => r.team = team)) team e hf
    subst heq
    simpa using ⟨hposs, hsome⟩
  · intro t_df team e h
    obtain ⟨-, heq, -⟩ := teamEntry_eq t_df team e h
    subst heq
    refine ⟨fun hl => ?_, fun ht => ?_, fun d hd => ?_, fun d hd => ?_⟩
    · simpa using bucketDelta_none t_df "leading" _ _ hl
    · simpa using bucketDelta_none t_df "trailing" _ _ ht
    · obtain ⟨h1, h2⟩ := bucketDelta_some t_df "leading" _ _ d (by simpa using hd)
      exact ⟨h1, by rw [h2], by rw [h2]⟩
    · obtain ⟨h1, h2⟩ := bucketDelta_some t_df "trailing" _ _ d (by simpa using hd)
      exact ⟨h1, by rw [h2], by rw [h2]⟩

/-- Witness for C4: the concrete store whose trailing bucket has only 10
possessions yields an entry with a valid baseline, no `trailing` field, a
present `leading` field, and membership in the priors output. -/
theorem prior_threshold_gating_check :
    teamEntry dfGatingCheck "NYK" = some entryGatingCheck ∧
    possSum (bucketRows dfGatingCheck "trailing") < TREATMENT_MIN_POSS ∧
    entryGatingCheck.trailing = none ∧
    entryGatingCheck ∈ generate_priors dfGatingCheck ∧
    (BASELINE_MIN_POSS ≤
       possSum (closeRows (dfGatingCheck.filter
         (fun r => r.team = entryGatingCheck.team))) ∧
     (entryGatingCheck.leading.isSome ∨ entryGatingCheck.trailing.isSome)) :=
  ⟨by decide, by decide,
   (prior_threshold_gating.2 dfGatingCheck "NYK" entryGatingCheck
      (by decide)).2.1 (by decide),
   by decide,
   prior_threshold_gating.1 dfGatingCheck entryGatingCheck (by decide)⟩

/-- C10: with the foul filter enabled, a close row survives the baseline
filter iff its `fta_rate` is missing (NaN) or at most
`CLOSE_FTA_RATE_MAX`; in particular a row with missing `fta_rate` is
always retained. -/
theorem foul_filter_membership (rows : List RawRow) (r : RawRow) :
    (r ∈ foulFilter rows ↔
       r ∈ rows ∧ (r.fta_rate = none ∨
         ∃ v, r.fta_rate = some v ∧ v ≤ CLOSE_FTA_RATE_MAX)) ∧
    (r.fta_rate = none → (r ∈ foulFilter rows ↔ r ∈ rows)) := by
  have hmem : r ∈ foulFilter rows ↔
      r ∈ rows ∧ (r.fta_rate = none ∨
        ∃ v, r.fta_rate = some v ∧ v ≤ CLOSE_FTA_RATE_MAX) := by
    simp only [foulFilter, ENABLE_FOUL_FILTER, if_true]
    rw [List.mem_filter]
    cases hf : r.fta_rate <;> simp [hf]
  exact ⟨hmem, fun hn => by simp [hmem, hn]⟩

/-- Witness for C10: the missing-rate row of the concrete store is
retained by the filter. -/
theorem foul_filter_membership_check :
    rowNanCheck.fta_rate = none ∧
    (rowNanCheck ∈ foulFilter dfFoulCheck ↔ rowNanCheck ∈ dfFoulCheck) ∧
    rowNanCheck ∈ foulFilter dfFoulCheck :=
  ⟨rfl, (foul_filter_membership dfFoulCheck rowNanCheck).2 rfl, by decide⟩

/-- C5: a discovered game is skipped by a normal-mode run exactly when it
has any manifest entry, and by a retry-errors run exactly when it has an
entry with status `DONE` or `SKIP_MEDIUM`, so games whose only entries are
`ERROR` are reprocessed in retry mode. -/
theorem manifest_skip_semantics (manifest : List ManifestEntry)
    (all_ids : List String) (gid : String) (retry : Bool)
    (hmem : gid ∈ all_ids) :
    (gid ∉ newGameIds manifest all_ids retry ↔
       gid ∈ processed_ids manifest retry) ∧
    (gid ∈ processed_ids manifest false ↔
       ∃ e ∈ manifest, e.game_id = gid) ∧
    (gid ∈ processed_ids manifest true ↔
       ∃ e ∈ manifest,
         (e.status = "DONE" ∨ e.status = "SKIP_MEDIUM") ∧ e.game_id = gid) := by
  refine ⟨?_, ?_, ?_⟩
  · simp [newGameIds, List.mem_filter, hmem]
  · simp [processed_ids, List.mem_map]
  · simp [processed_ids, List.mem_filter, List.mem_map]
    constructor
    · rintro ⟨e, ⟨he, hst⟩, hid⟩
      exact ⟨e, he, hst, hid⟩
    · rintro ⟨e, he, hst, hid⟩
      exact ⟨e, ⟨he, hst⟩, hid⟩

/-- Witness for C5: in the concrete manifest, game `a` (only an `ERROR`
entry) is reprocessed under retry mode but skipped under normal mode. -/
theorem manifest_skip_semantics_check :
    ("a" : String) ∈ ["a", "b", "c", "d"] ∧
    (("a" : String) ∉ newGameIds manifestCheck ["a", "b", "c", "d"] true ↔
       ("a" : String) ∈ processed_ids manifestCheck true) ∧
    ("a" : String) ∈ newGameIds manifestCheck ["a", "b", "c", "d"] true ∧
    ("a" : String) ∉ newGameIds manifestCheck ["a", "b", "c", "d"] false :=
  ⟨by decide,
   (manifest_skip_semantics manifestCheck ["a", "b", "c", "d"] "a" true
      (by decide)).1,
   by decide, by decide⟩

/-- C9: whenever the margin computation succeeds on a line-score table
whose first two rows carry distinct team ids, the returned mapping is
defined exactly on those two ids and the two signed differentials sum to
zero. -/
theorem q3_margins_two_team_antisymmetry
    (t1 t2 : LineRow) (rest : List LineRow)
    (hne : t1.team_id ≠ t2.team_id) :
    ∃ m, get_q3_margins (t1 :: t2 :: rest) = some m ∧
      (∀ t, (m t).isSome ↔ (t = t1.team_id ∨ t = t2.team_id)) ∧
      ∃ d1 d2, m t1.team_id = some d1 ∧ m t2.team_id = some d2 ∧
        d1 + d2 = 0 := by
  refine ⟨_, rfl, ?_,
    pts_enter_q4 t1 - pts_enter_q4 t2, pts_enter_q4 t2 - pts_enter_q4 t1,
    ?_, ?_, by ring⟩
  · intro t
    by_cases h2 : t = t2.team_id <;> by_cases h1 : t = t1.team_id <;>
      simp [h1, h2, apply_ite Option.isSome]
  · simp [hne]
  · simp

/-- Witness for C9: the synthetic two-team line score with totals 90 and
75 yields margins `+15` and `-15`. -/
theorem q3_margins_two_team_antisymmetry_check :
    lineRowCheck1.team_id ≠ lineRowCheck2.team_id ∧
    ∃ m, get_q3_margins [lineRowCheck1, lineRowCheck2] = some m ∧
      (∀ t, (m t).isSome ↔
        (t = lineRowCheck1.team_id ∨ t = lineRowCheck2.team_id)) ∧
      ∃ d1 d2, m lineRowCheck1.team_id = some d1 ∧
        m lineRowCheck2.team_id = some d2 ∧ d1 + d2 = 0 :=
  ⟨by decide,
   q3_margins_two_team_antisymmetry lineRowCheck1 lineRowCheck2 [] (by decide)⟩

/-- Each loop iteration appends exactly one manifest entry. -/
theorem processGame_manifest_len (env : GameEnv) (st : LoopState)
    (gid : String) :
    (processGame env st gid).manifest_new.length =
      st.manifest_new.length + 1 := by
  simp only [processGame]
  cases henv : env.margins gid with
  | none => simp
  | some m =>
    dsimp only
    split <;> simp

/-- The loop appends one manifest entry per processed game. -/
theorem foldl_manifest_len (env : GameEnv) (ids : List String)
    (st : LoopState) :
    (ids.foldl (processGame env) st).manifest_new.length =
      st.manifest_new.length + ids.length := by
  induction ids generalizing st with
  | nil => simp
  | cons gid rest ih =>
    rw [List.foldl_cons, ih, processGame_manifest_len, List.length_cons]
    omega

/-- C1: the composite key `(game_id, team, game_state, team_state)` stays
unique across the raw store: every appended row's key is absent from the
loaded store, one run of the pipeline preserves key uniqueness, and so
does any second run over the same discovered games, whatever the manifest
then contains. -/
theorem raw_store_key_uniqueness (env : GameEnv)
    (manifest : List ManifestEntry) (raw : List RawRow) (ids : List String)
    (retry : Bool) (h : (raw.map rawKey).Nodup) :
    (∀ r ∈ (mainRun env manifest raw ids retry).rawAppended,
       rawKey r ∉ raw.map rawKey) ∧
    ((raw ++ (mainRun env manifest raw ids retry).rawAppended).map rawKey).Nodup ∧
    (∀ manifest2 : List ManifestEntry,
      (((raw ++ (mainRun env manifest raw ids retry).rawAppended) ++
        (mainRun env manifest2
          (raw ++ (mainRun env manifest raw ids retry).rawAppended) ids
          retry).rawAppended).map rawKey).Nodup) := by
  refine ⟨?_, mainRun_nodup env manifest raw ids retry h, fun manifest2 =>
    mainRun_nodup env manifest2 _ ids retry
      (mainRun_nodup env manifest raw ids retry h)⟩
  intro r hr
  exact (mainRun_raw_spec env manifest raw ids retry).2 (rawKey r)
    (List.mem_map_of_mem _ hr)

/-- Witness for C1: a concrete run on an empty store captures two rows for
game `g1`, and re-running over the same upstream data with the manifest
wiped appends nothing because both keys are already present. -/
theorem raw_store_key_uniqueness_check :
    (([] : List RawRow).map rawKey).Nodup ∧
    ((([] : List RawRow) ++
       (mainRun envDedupCheck [] [] ["g1"] false).rawAppended).map rawKey).Nodup ∧
    ((mainRun envDedupCheck [] [] ["g1"] false).rawAppended.map rawKey =
      [("g1", "AAA", "blowout", "leading"),
       ("g1", "BBB", "blowout", "trailing")]) ∧
    (mainRun envDedupCheck []
       (([] : List RawRow) ++
        (mainRun envDedupCheck [] [] ["g1"] false).rawAppended)
       ["g1"] false).rawAppended = [] :=
  ⟨by decide,
   (raw_store_key_uniqueness envDedupCheck [] [] ["g1"] false (by decide)).2.1,
   by decide, by decide⟩

/-- C7 counterexample: a fetch-stage exception whose class name is `SKIP`
is recorded with status `SKIP_MEDIUM`, not `ERROR`, because the loop
classifies the status string by the substring test `"SKIP" in status`. -/
theorem per_game_error_status_counterexample :
    (processGame envSkipCheck ⟨[], [], []⟩ "g1").manifest_new.map
      ManifestEntry.status = ["SKIP_MEDIUM"] ∧
    ¬((processGame envSkipCheck ⟨[], [], []⟩ "g1").manifest_new.map
      ManifestEntry.status = ["ERROR"]) := by
  decide

/-- C7 as amended: the loop records exactly one manifest entry per
processed game and never aborts, and a fetch-stage exception of kind `K`
is recorded with reason `ERROR_K` and no staged rows, with status `ERROR`
unless `K`'s name contains `SKIP` (in which case `SKIP_MEDIUM`). -/
theorem per_game_error_handling (env : GameEnv) (ids : List String)
    (keys0 : List (String × String × String × String)) :
    (runLoop env ids keys0).manifest_new.length = ids.length ∧
    (∀ (st : LoopState) (gid : String) (m : ℤ → Option ℤ) (kind : String),
       env.margins gid = some m → env.fetchExc gid = some kind →
       (processGame env st gid).manifest_new = st.manifest_new ++
         [⟨gid,
           if strContainsSKIP ("ERROR_" ++ kind) then "SKIP_MEDIUM" else "ERROR",
           "ERROR_" ++ kind⟩] ∧
       (processGame env st gid).batch_raw = st.batch_raw) := by
  constructor
  · rw [runLoop, foldl_manifest_len]
    simp
  · intro st gid m kind hm hexc
    have hfetch : fetchWithExc env gid m = ([], "ERROR_" ++ kind) := by
      simp [fetchWithExc, hexc]
    have hne : ("ERROR_" ++ kind) ≠ "DONE" := by
      intro hcontra
      have hlen := congrArg String.length hcontra
      rw [String.length_append] at hlen
      have h6 : ("ERROR_" : String).length = 6 := rfl
      have h4 : ("DONE" : String).length = 4 := rfl
      omega
    simp only [processGame, hm, hfetch]
    rw [if_neg hne]
    exact ⟨rfl, rfl⟩

/-- Witness for C7 as amended: with a `ValueError` raised while fetching
game `g2`, the run still records one entry per game, and `g2`'s entry is
`ERROR` with reason `ERROR_ValueError` and no staged rows. -/
theorem per_game_error_handling_check :
    (runLoop envExcCheck ["g1", "g2"] []).manifest_new.length = 2 ∧
    (processGame envExcCheck ⟨[], [], []⟩ "g2").manifest_new =
      [⟨"g2", "ERROR", "ERROR_ValueError"⟩] ∧
    (processGame envExcCheck ⟨[], [], []⟩ "g2").batch_raw = [] :=
  ⟨(per_game_error_handling envExcCheck ["g1", "g2"] []).1,
   (((per_game_error_handling envExcCheck ["g1", "g2"] []).2
      ⟨[], [], []⟩ "g2" (fun _ => none) "ValueError" rfl rfl).1).trans
     (by decide),
   ((per_game_error_handling envExcCheck ["g1", "g2"] []).2
      ⟨[], [], []⟩ "g2" (fun _ => none) "ValueError" rfl rfl).2⟩

/-- C8 counterexample: when discovery returns no games, `main` logs and
returns normally, so the interpreter exits with code 0 — not a non-zero
code as claimed. -/
theorem discovery_empty_exit_code_counterexample :
    ¬((mainRun envNoneCheck [] [] [] false).exitCode ≠ 0) := by
  decide

/-- C8 as amended: an empty discovery aborts the run before any per-game
processing — nothing is appended to either store and no priors artifact
is written — but the process exit code is 0, exactly as on normal
completion. -/
theorem discovery_empty_aborts (env : GameEnv)
    (manifest : List ManifestEntry) (raw : List RawRow) (ids : List String)
    (retry : Bool) :
    (ids = [] → mainRun env manifest raw ids retry =
       { exitCode := 0, manifestAppended := [], rawAppended := [],
         priorsOut := none }) ∧
    (mainRun env manifest raw ids retry).exitCode = 0 := by
  constructor
  · intro h
    subst h
    rfl
  · unfold mainRun
    split <;> rfl

/-- Witness for C8 as amended: the empty-discovery run appends nothing and
exits 0. -/
theorem discovery_empty_aborts_check :
    ([] : List String) = [] ∧
    mainRun envNoneCheck [] [] [] false =
      { exitCode := 0, manifestAppended := [], rawAppended := [],
        priorsOut := none } ∧
    (mainRun envNoneCheck [] [] [] false).exitCode = 0 :=
  ⟨rfl, (discovery_empty_aborts envNoneCheck [] [] [] false).1 rfl,
   (discovery_empty_aborts envNoneCheck [] [] [] false).2⟩

end Blowout
